import Mathlib

/-!
Shallow embedding of the elm-watch browser client (the hot-reload websocket
client injected into pages). The transition function `update`, its helpers
`reconnect`, `statusChanged`, `onUiMsg`, `onWebSocketToClientMessage`, the
backoff policy `retryWaitMs`, the program introspection
`checkInitializedElmAppsStatus` with `humanList` and `noDebuggerReason`, and
the startup interception guard from client/proxy.ts are translated from the
TypeScript source. Dates are modelled as integer milliseconds since the
epoch (`Date.getTime`); the compile-time constant COMPILATION_MODE is passed
as an explicit parameter.
-/

namespace ElmWatch

/-- Compilation modes negotiated between client and server (spec section 6:
debug, standard, optimize). -/
inductive CompilationMode
  | debug
  | standard
  | optimize
  deriving DecidableEq, Repr

/-- Modelled from the spec: `CompilationModeWithProxy` lives in the missing
src/Types module; per spec section 6 it is a compilation mode plus a
client-only pseudo-mode ("proxy") denoting that nothing is compiled yet. -/
inductive CompilationModeWithProxy
  | proxy
  | ofMode (mode : CompilationMode)
  deriving DecidableEq, Repr

/-- The unforgeable send key: in the source a single `unique symbol`
(SEND_KEY_DO_NOT_USE_ALL_THE_TIME), so the type has exactly one value. -/
inductive SendKey
  | sendKeyDoNotUseAllTheTime
  deriving DecidableEq, Repr

/-- The `Status` union of the client Model. `date` fields are epoch
milliseconds. `Busy.compilationMode` is optional in the source. -/
inductive Status
  | busy (date : Int) (compilationMode : Option CompilationMode)
  | compileError (date : Int)
  | connecting (date : Int) (attemptNumber : Nat)
  | evalError (date : Int)
  | idle (date : Int) (sendKey : SendKey)
  | sleepingBeforeReconnect (date : Int) (attemptNumber : Nat)
  | unexpectedError (date : Int) (message : String)
  deriving DecidableEq, Repr

/-- True exactly for the `SleepingBeforeReconnect` variant. -/
def Status.sleepingTag : Status → Bool
  | .sleepingBeforeReconnect _ _ => true
  | _ => false

/-- True exactly for the `Idle` variant. -/
def Status.idleTag : Status → Bool
  | .idle _ _ => true
  | _ => false

/-- The `"attemptNumber" in model.status` check of the WebSocketClosed case:
exactly the Connecting and SleepingBeforeReconnect variants carry an
`attemptNumber` field. -/
def Status.hasAttemptNumber : Status → Bool
  | .connecting _ _ => true
  | .sleepingBeforeReconnect _ _ => true
  | _ => false

/-- The client `Model`. -/
structure Model where
  status : Status
  elmCompiledTimestamp : Int
  canHotReload : Bool
  uiExpanded : Bool
  deriving DecidableEq, Repr

/-- Modelled from the spec: `WebSocketToServerMessage` lives in the missing
client/WebSocketMessages module; per spec section 4.2 the outbound frames are
FocusedTab and ChangedCompilationMode(mode). -/
inductive WebSocketToServerMessage
  | focusedTab
  | changedCompilationMode (compilationMode : CompilationMode)
  deriving DecidableEq, Repr

/-- The `Cmd` union emitted by the transition function. -/
inductive Cmd
  | eval (code : String)
  | reconnect (elmCompiledTimestamp : Int)
  | reloadPage
  | render (model : Model) (manageFocus : Bool)
  | sendMessage (message : WebSocketToServerMessage) (sendKey : SendKey)
  | sleepBeforeReconnect (attemptNumber : Nat)
  deriving DecidableEq, Repr

/-- Modelled from the spec: the inbound `StatusChanged` payload of the
missing client/WebSocketMessages module; per spec section 4.2 its status is
one of AlreadyUpToDate, Busy(mode), ClientError(message), CompileError. -/
inductive StatusChangedStatus
  | alreadyUpToDate
  | busy (compilationMode : CompilationMode)
  | clientError (message : String)
  | compileError
  deriving DecidableEq, Repr

/-- Modelled from the spec: `WebSocketToClientMessage` of the missing
client/WebSocketMessages module; per spec section 4.2 the inbound frames are
StatusChanged and SuccessfullyCompiled(code, compilationMode,
compiledTimestamp). -/
inductive WebSocketToClientMessage
  | statusChanged (status : StatusChangedStatus)
  | successfullyCompiled (code : String) (compilationMode : CompilationMode)
      (elmCompiledTimestamp : Int)
  deriving DecidableEq, Repr

/-- Modelled from the spec: the observable outcome of
`decodeWebSocketToClientMessage` composed with `Decode.string` (both outside
src): raw websocket data either decodes to a typed message or the decoder
throws with a message string (the structured, field-path-annotated error of
spec section 4.2, already rendered by possiblyDecodeErrorToString). -/
inductive WireData
  | valid (message : WebSocketToClientMessage)
  | invalid (errorMessage : String)
  deriving DecidableEq, Repr

/-- Result type of `parseWebSocketMessageData`. -/
inductive ParseWebSocketMessageDataResult
  | success (message : WebSocketToClientMessage)
  | error (message : String)
  deriving DecidableEq, Repr

/-- `parseWebSocketMessageData`: try decoding; any thrown decode error is
caught and wrapped with the fixed prefix. -/
def parseWebSocketMessageData : WireData → ParseWebSocketMessageDataResult
  | .valid message => .success message
  | .invalid err =>
      .error ("Failed to decode web socket message sent from the server:\n" ++ err)

/-- The `UiMsg` union (messages from the status widget). -/
inductive UiMsg
  | changedCompilationMode (compilationMode : CompilationMode) (sendKey : SendKey)
  | pressedChevron
  | pressedReconnectNow
  deriving DecidableEq, Repr

/-- The `Msg` union dispatched to `update`. -/
inductive Msg
  | evalErrored (date : Int)
  | focusedTab
  | pageVisibilityChangedToVisible (date : Int)
  | sleepBeforeReconnectDone (date : Int)
  | uiMsg (date : Int) (msg : UiMsg)
  | webSocketClosed (date : Int)
  | webSocketConnected (date : Int)
  | webSocketMessageReceived (date : Int) (data : WireData)
  deriving DecidableEq, Repr

/-- `init`: the starting model, parameterised by the build-time constant
INITIAL_ELM_COMPILED_TIMESTAMP and the current date. -/
def init (initialElmCompiledTimestamp : Int) (date : Int) : Model × List Cmd :=
  let model : Model :=
    { status := .connecting date 1
      elmCompiledTimestamp := initialElmCompiledTimestamp
      canHotReload := false
      uiExpanded := false }
  (model, [.render model false])

/-- `retryWaitMs`: at least 1010 ms, at most 1 minute. -/
def retryWaitMs (attemptNumber : Nat) : Nat :=
  min (1000 + 10 * attemptNumber ^ 2) (1000 * 60)

/-- `reconnect`: reconnect timers are never cleared; instead the required
amount of elapsed time is re-checked on fire, and `force` bypasses it. -/
def reconnect (model : Model) (date : Int) (force : Bool) : Model × List Cmd :=
  match model.status with
  | .sleepingBeforeReconnect statusDate attemptNumber =>
      if (retryWaitMs attemptNumber : Int) ≤ date - statusDate ∨ force = true then
        ({ model with status := .connecting date attemptNumber },
         [.reconnect model.elmCompiledTimestamp])
      else
        (model, [])
  | _ => (model, [])

/-- `statusChanged`: handle an inbound StatusChanged payload. -/
def statusChanged (date : Int) (status : StatusChangedStatus) (model : Model) :
    Model :=
  match status with
  | .alreadyUpToDate =>
      { model with
        status := .idle date .sendKeyDoNotUseAllTheTime
        canHotReload := true }
  | .busy compilationMode =>
      { model with status := .busy date (some compilationMode) }
  | .clientError message =>
      { model with
        status := .unexpectedError date message
        uiExpanded := true }
  | .compileError =>
      { model with status := .compileError date }

/-- `onWebSocketToClientMessage`, parameterised by the build-time constant
COMPILATION_MODE. -/
def onWebSocketToClientMessage (compilationModeConst : CompilationModeWithProxy)
    (date : Int) (msg : WebSocketToClientMessage) (model : Model) :
    Model × List Cmd :=
  match msg with
  | .statusChanged status => (statusChanged date status model, [])
  | .successfullyCompiled code compilationMode elmCompiledTimestamp =>
      if model.canHotReload = false ∨
          CompilationModeWithProxy.ofMode compilationMode ≠ compilationModeConst then
        (model, [.reloadPage])
      else
        ({ model with
           status := .idle date .sendKeyDoNotUseAllTheTime
           elmCompiledTimestamp := elmCompiledTimestamp },
         [.eval code])

/-- `onUiMsg`: handle a message from the status widget. -/
def onUiMsg (date : Int) (msg : UiMsg) (model : Model) : Model × List Cmd :=
  match msg with
  | .changedCompilationMode compilationMode sendKey =>
      ({ model with status := .busy date (some compilationMode) },
       [.sendMessage (.changedCompilationMode compilationMode) sendKey])
  | .pressedChevron => ({ model with uiExpanded := !model.uiExpanded }, [])
  | .pressedReconnectNow => reconnect model date true

/-- `update`: the central pure transition function, parameterised by the
build-time constant COMPILATION_MODE. -/
def update (compilationModeConst : CompilationModeWithProxy) (msg : Msg)
    (model : Model) : Model × List Cmd :=
  match msg with
  | .evalErrored date =>
      ({ model with status := .evalError date, uiExpanded := true }, [])
  | .focusedTab =>
      (model,
       match model.status with
       | .idle _ sendKey => [.sendMessage .focusedTab sendKey]
       | _ => [])
  | .pageVisibilityChangedToVisible date => reconnect model date true
  | .sleepBeforeReconnectDone date => reconnect model date false
  | .uiMsg date msg => onUiMsg date msg model
  | .webSocketClosed date =>
      let attemptNumber : Nat :=
        match model.status with
        | .connecting _ n => n + 1
        | .sleepingBeforeReconnect _ n => n + 1
        | _ => 1
      ({ model with status := .sleepingBeforeReconnect date attemptNumber },
       [.sleepBeforeReconnect attemptNumber])
  | .webSocketConnected date =>
      ({ model with status := .busy date none }, [])
  | .webSocketMessageReceived date data =>
      match parseWebSocketMessageData data with
      | .success message =>
          onWebSocketToClientMessage compilationModeConst date message model
      | .error message =>
          ({ model with
             status := .unexpectedError date message
             uiExpanded := true },
           [])

/-- The attempt number computed by the WebSocketClosed case of `update`: one
more than the current attempt number when the status carries one (Connecting
or SleepingBeforeReconnect), 1 otherwise. -/
def closedAttemptNumber : Status → Nat
  | .connecting _ n => n + 1
  | .sleepingBeforeReconnect _ n => n + 1
  | _ => 1

/-- A shallow model of JavaScript values, enough for the program registry
walked by the introspection code and for the interception guard target. -/
inductive JsValue
  | str (s : String)
  | num (n : Int)
  | boolean (b : Bool)
  | nullV
  | undefinedValue
  | func
  | arr (items : List JsValue)
  | obj (fields : List (String × JsValue))

/-- True exactly for the `undefined` value. -/
def JsValue.undefTag : JsValue → Bool
  | .undefinedValue => true
  | _ => false

/-- JavaScript object key lookup: the fields list of an object, first
matching key (object keys are unique in practice). -/
def lookupField : List (String × JsValue) → String → Option JsValue
  | [], _ => none
  | (key, value) :: rest, property =>
      if key = property then some value else lookupField rest property

/-- `Reflect.get` semantics on a plain data object: the stored value, or
`undefined` when the key is absent. -/
def jsGet (target : List (String × JsValue)) (property : String) : JsValue :=
  match lookupField target property with
  | some value => value
  | none => .undefinedValue

/-- The program kinds of the `ProgramType` string union. -/
inductive ProgramType
  | platformWorker
  | browserSandbox
  | browserElement
  | browserDocument
  | browserApplication
  | html
  deriving DecidableEq, Repr

/-- The wire string of each program kind. -/
def ProgramType.asString : ProgramType → String
  | .platformWorker => "Platform.worker"
  | .browserSandbox => "Browser.sandbox"
  | .browserElement => "Browser.element"
  | .browserDocument => "Browser.document"
  | .browserApplication => "Browser.application"
  | .html => "Html"

/-- The `Platform.worker` / `Html` filter of checkInitializedElmAppsStatus:
true exactly for the debugger-incompatible kinds. -/
def programTypeNoDebugger : ProgramType → Bool
  | .platformWorker => true
  | .html => true
  | .browserSandbox => false
  | .browserElement => false
  | .browserDocument => false
  | .browserApplication => false

/-- Modelled from the spec: the decoder library (tiny-decoders) is an
external collaborator whose exact error texts are opaque; this models
`Decode.stringUnion` for ProgramType: a string of the union decodes, any
other string fails. -/
def decodeProgramTypeString (s : String) : Except String ProgramType :=
  if s = "Platform.worker" then .ok .platformWorker
  else if s = "Browser.sandbox" then .ok .browserSandbox
  else if s = "Browser.element" then .ok .browserElement
  else if s = "Browser.document" then .ok .browserDocument
  else if s = "Browser.application" then .ok .browserApplication
  else if s = "Html" then .ok .html
  else .error ("Expected one of the known program types but got: " ++ s)

/-- A ProgramType decoder applied to a raw value: non-strings fail. -/
def decodeProgramTypeValue : JsValue → Except String ProgramType
  | .str s => decodeProgramTypeString s
  | _ => .error "Expected a string but got another type of value"

/-- `Decode.fields (field __elmWatchProgramType ProgramType)` applied to one
array item: the item must be an object and its `__elmWatchProgramType`
field must decode as a program type (a missing field reads as undefined). -/
def decodeProgramTypeField : JsValue → Except String ProgramType
  | .obj fields => decodeProgramTypeValue (jsGet fields "__elmWatchProgramType")
  | _ => .error "Expected an object but got another type of value"

/-- Decode every item of an initialized-programs array. -/
def decodeArrayItems : List JsValue → Except String (List ProgramType)
  | [] => .ok []
  | item :: rest =>
      match decodeProgramTypeField item with
      | .error e => .error e
      | .ok p =>
          match decodeArrayItems rest with
          | .error e => .error e
          | .ok ps => .ok (p :: ps)

mutual

/-- The recursive `ElmModule` decoder: `Decode.record` (so the value must be
an object) of per-value decoding, flattening all collected program kinds in
key order. -/
def decodeElmModule : JsValue → Except String (List ProgramType)
  | .obj fields => decodeModuleFields fields
  | _ => .error "Expected an object but got another type of value"

/-- Decode each field value of a module record in order, concatenating. -/
def decodeModuleFields : List (String × JsValue) → Except String (List ProgramType)
  | [] => .ok []
  | (_, value) :: rest =>
      match decodeModuleValue value with
      | .error e => .error e
      | .ok ps =>
          match decodeModuleFields rest with
          | .error e => .error e
          | .ok qs => .ok (ps ++ qs)

/-- One module value: `functionToNull` then `Decode.multi`: functions and
null give no programs, an array is a list of initialized-program
descriptors, an object is a nested module; anything else fails. -/
def decodeModuleValue : JsValue → Except String (List ProgramType)
  | .func => .ok []
  | .nullV => .ok []
  | .arr items => decodeArrayItems items
  | .obj fields => decodeModuleFields fields
  | _ => .error "Expected null, an array or an object but got another type of value"

end

/-- `ProgramTypes`: the field `Elm` of the page-global object, decoded as an
ElmModule (a missing field reads as undefined and fails the decoder). -/
def ProgramTypes (window : JsValue) : Except String (List ProgramType) :=
  match window with
  | .obj fields => decodeElmModule (jsGet fields "Elm")
  | _ => .error "Expected an object but got another type of value"

/-- The `InitializedElmAppsStatus` union. -/
inductive Toggled
  | disabled (reason : String)
  | enabled
  deriving DecidableEq, Repr

/-- Result of the program introspection. -/
inductive InitializedElmAppsStatus
  | debuggerModeStatus (status : Toggled)
  | decodeError (message : String)
  | noProgramsAtAll
  deriving DecidableEq, Repr

/-- A JavaScript `Set` built from a list: deduplicate keeping the first
occurrence of each element, in insertion order. -/
def dedupKeepFirst (list : List ProgramType) : List ProgramType :=
  list.foldl (fun acc x => if x ∈ acc then acc else acc ++ [x]) []

/-- `humanList`: join with a word, matching the slice arithmetic of the
source (no space after the comma between early items of a long list). -/
def humanList (list : List String) (joinWord : String) : String :=
  let length := list.length
  if length ≤ 1 then String.intercalate "" list
  else if length = 2 then String.intercalate (" " ++ joinWord ++ " ") list
  else
    String.intercalate "," (list.take (length - 2)) ++ ", " ++
      String.intercalate (" " ++ joinWord ++ " ") (list.drop (length - 2))

/-- The apostrophe character, as a string. -/
def apostrophe : String := String.singleton (Char.ofNat 39)

/-- `noDebuggerReason`: names the distinct debugger-incompatible kinds,
backtick-quoted, human-joined with "and". -/
def noDebuggerReason (noDebuggerProgramTypes : List ProgramType) : String :=
  "The Elm debugger isn" ++ apostrophe ++ "t supported by " ++
    humanList (noDebuggerProgramTypes.map (fun p => "`" ++ p.asString ++ "`")) "and" ++
    " programs."

/-- `checkInitializedElmAppsStatus`: classify the page-global program
registry, parameterised by the build-time constant COMPILATION_MODE and by
the page-global object. -/
def checkInitializedElmAppsStatus (compilationModeConst : CompilationModeWithProxy)
    (window : JsValue) : InitializedElmAppsStatus :=
  match ProgramTypes window with
  | .error unknownError =>
      if compilationModeConst = .proxy then .debuggerModeStatus .enabled
      else .decodeError unknownError
  | .ok programTypes =>
      if programTypes.length = 0 then .noProgramsAtAll
      else
        let noDebugger := programTypes.filter programTypeNoDebugger
        if noDebugger.length = programTypes.length then
          .debuggerModeStatus (.disabled (noDebuggerReason (dedupKeepFirst noDebugger)))
        else .debuggerModeStatus .enabled

/-- The single fixed Error object created at the top of client/proxy.ts,
thrown by every trap of the interception guard. -/
inductive ElmProxyError
  | proxyNotReadyError
  deriving DecidableEq, Repr

/-- The `startsWith("_")` check of the get trap: the property name begins
with an underscore character. -/
def startsWithUnderscore (property : String) : Bool :=
  match property.data with
  | [] => false
  | c :: _ => c = '_'

/-- The `get` trap of the guard: return the value when it is defined or the
property name starts with an underscore (the internal allow-list); otherwise
throw the fixed error. -/
def elmProxyGet (target : List (String × JsValue)) (property : String) :
    Except ElmProxyError JsValue :=
  let value := jsGet target property
  if value.undefTag = false ∨ startsWithUnderscore property = true then .ok value
  else .error .proxyNotReadyError

/-- The `getOwnPropertyDescriptor` trap: pass an existing descriptor through,
throw the fixed error when the property is absent. The descriptor is
modelled by the stored value. -/
def elmProxyGetOwnPropertyDescriptor (target : List (String × JsValue))
    (property : String) : Except ElmProxyError JsValue :=
  match lookupField target property with
  | some descriptor => .ok descriptor
  | none => .error .proxyNotReadyError

/-- The `has` trap: report true for a present property, throw the fixed
error instead of reporting absence. -/
def elmProxyHas (target : List (String × JsValue)) (property : String) :
    Except ElmProxyError Bool :=
  if (lookupField target property).isSome = true then .ok true
  else .error .proxyNotReadyError

/-- The `ownKeys` trap: always throws the fixed error. -/
def elmProxyOwnKeys (_target : List (String × JsValue)) :
    Except ElmProxyError (List String) :=
  .error .proxyNotReadyError

section Theorems

/-- Helper: `reconnect` never changes the `canHotReload` flag. -/
theorem reconnect_fst_canHotReload (model : Model) (d : Int) (f : Bool) :
    (reconnect model d f).1.canHotReload = model.canHotReload := by
  obtain ⟨st, ts, chr, ui⟩ := model
  cases st <;> (simp only [reconnect]; try rfl)
  split <;> rfl

/-- Helper: `reconnect` emits no SendMessage command. -/
theorem reconnect_no_sendMessage (model : Model) (d : Int) (f : Bool)
    (m : WebSocketToServerMessage) (k : SendKey) :
    Cmd.sendMessage m k ∉ (reconnect model d f).2 := by
  obtain ⟨st, ts, chr, ui⟩ := model
  cases st <;> (simp only [reconnect]; try simp)
  split <;> simp

/-- C7: for every attempt number n at least 1, the backoff returns
min(1000 + 10·n², 60000) milliseconds, it is monotone nondecreasing, its
value lies in the interval from 1010 to 60000, and its value at 1 is
1010. -/
theorem C7_retryWaitMs_backoff :
    (∀ n : Nat, 1 ≤ n → retryWaitMs n = min (1000 + 10 * n ^ 2) 60000) ∧
    (∀ m n : Nat, 1 ≤ m → m ≤ n → retryWaitMs m ≤ retryWaitMs n) ∧
    (∀ n : Nat, 1 ≤ n → 1010 ≤ retryWaitMs n ∧ retryWaitMs n ≤ 60000) ∧
    retryWaitMs 1 = 1010 := by
  refine ⟨fun n _ => rfl, ?_, ?_, by decide⟩
  · intro m n _ hmn
    have hsq : m ^ 2 ≤ n ^ 2 := Nat.pow_le_pow_left hmn 2
    unfold retryWaitMs
    exact min_le_min (by omega) (le_refl _)
  · intro n hn
    have hsq : 1 ≤ n ^ 2 := by
      calc 1 = 1 ^ 2 := by norm_num
      _ ≤ n ^ 2 := Nat.pow_le_pow_left hn 2
    unfold retryWaitMs
    exact ⟨le_min (by omega) (by norm_num), min_le_right _ _⟩

/-- C7 witness: the backoff facts evaluated at concrete attempt numbers. -/
theorem C7_retryWaitMs_backoff_witness :
    retryWaitMs 3 = min (1000 + 10 * 3 ^ 2) 60000 ∧
    retryWaitMs 2 ≤ retryWaitMs 5 ∧
    (1010 ≤ retryWaitMs 4 ∧ retryWaitMs 4 ≤ 60000) :=
  ⟨C7_retryWaitMs_backoff.1 3 (by decide),
   C7_retryWaitMs_backoff.2.1 2 5 (by decide) (by decide),
   C7_retryWaitMs_backoff.2.2.1 4 (by decide)⟩

/-- C6: every inbound WebSocketMessageReceived whose data fails to decode
yields status UnexpectedError carrying the decode-failure message (the fixed
prefix followed by the decoder error verbatim), sets uiExpanded, and emits
no command: a malformed inbound frame never escapes unhandled. -/
theorem C6_decode_failure_unexpectedError (cmode : CompilationModeWithProxy)
    (model : Model) (d : Int) (e : String) :
    (update cmode (.webSocketMessageReceived d (.invalid e)) model).1.status =
      .unexpectedError d
        ("Failed to decode web socket message sent from the server:\n" ++ e) ∧
    (update cmode (.webSocketMessageReceived d (.invalid e)) model).1.uiExpanded
      = true ∧
    (update cmode (.webSocketMessageReceived d (.invalid e)) model).2 = [] :=
  ⟨rfl, rfl, rfl⟩

/-- C4 amended: on WebSocketClosed the status becomes SleepingBeforeReconnect
with attempt number one greater than the current one when the current status
carries an attempt number (Connecting or SleepingBeforeReconnect) and 1
otherwise, and a sleep command for that attempt is scheduled. -/
theorem C4_webSocketClosed_attempt (cmode : CompilationModeWithProxy)
    (model : Model) (d : Int) :
    (update cmode (.webSocketClosed d) model).1.status =
      .sleepingBeforeReconnect d (closedAttemptNumber model.status) ∧
    (update cmode (.webSocketClosed d) model).2 =
      [.sleepBeforeReconnect (closedAttemptNumber model.status)] := by
  unfold update closedAttemptNumber
  cases model.status <;> exact ⟨rfl, rfl⟩

/-- C4 counterexample: from the initial model a first closure yields attempt
number 2, but after a wake, a reconnect and a successful connection, the
next closure yields attempt number 1, not 3: the attempt number resets after
a successful connection, not only on a fresh page load. -/
theorem C4_counterexample_reset_after_connect :
    (update (.ofMode .standard) (.webSocketClosed 1)
        (init 0 0).1).1.status = .sleepingBeforeReconnect 1 2 ∧
    (update (.ofMode .standard) (.webSocketClosed 2002)
      (update (.ofMode .standard) (.webSocketConnected 2001)
        (update (.ofMode .standard) (.sleepBeforeReconnectDone 2000)
          (update (.ofMode .standard) (.webSocketClosed 1)
            (init 0 0).1).1).1).1).1.status =
      .sleepingBeforeReconnect 2002 1 := by
  constructor <;> rfl

/-- C10: a forced wake message (PressedReconnectNow or
PageVisibilityChangedToVisible) on a model whose status is not
SleepingBeforeReconnect leaves the model unchanged and emits no command. -/
theorem C10_forced_wake_noop (cmode : CompilationModeWithProxy) (model : Model)
    (d : Int) (h : model.status.sleepingTag = false) :
    update cmode (.pageVisibilityChangedToVisible d) model = (model, []) ∧
    update cmode (.uiMsg d .pressedReconnectNow) model = (model, []) := by
  have hr : reconnect model d true = (model, []) := by
    unfold reconnect
    cases hs : model.status <;>
      simp_all [Status.sleepingTag]
  exact ⟨hr, hr⟩

/-- C10 witness: forced wakes are no-ops on a concrete Busy model. -/
theorem C10_forced_wake_noop_witness :
    update (.ofMode .standard) (.pageVisibilityChangedToVisible 5)
        { status := .busy 0 none, elmCompiledTimestamp := 0,
          canHotReload := false, uiExpanded := false } =
      ({ status := .busy 0 none, elmCompiledTimestamp := 0,
         canHotReload := false, uiExpanded := false }, []) ∧
    update (.ofMode .standard) (.uiMsg 5 .pressedReconnectNow)
        { status := .busy 0 none, elmCompiledTimestamp := 0,
          canHotReload := false, uiExpanded := false } =
      ({ status := .busy 0 none, elmCompiledTimestamp := 0,
         canHotReload := false, uiExpanded := false }, []) :=
  C10_forced_wake_noop (.ofMode .standard) _ 5 (by decide)

/-- C1: on SuccessfullyCompiled(code, ts, mode), if canHotReload is false or
mode differs from the configured compilation mode the transition emits a
full-page-reload command and never an evaluate command; otherwise the status
becomes Idle with the send key, elmCompiledTimestamp is set to ts, and the
commands include Eval(code). -/
theorem C1_successfullyCompiled_gate (cmode : CompilationModeWithProxy)
    (model : Model) (code : String) (mode : CompilationMode) (ts d : Int) :
    ((model.canHotReload = false ∨ CompilationModeWithProxy.ofMode mode ≠ cmode) →
      Cmd.reloadPage ∈ (update cmode (.webSocketMessageReceived d
          (.valid (.successfullyCompiled code mode ts))) model).2 ∧
      ∀ c : String, Cmd.eval c ∉ (update cmode (.webSocketMessageReceived d
          (.valid (.successfullyCompiled code mode ts))) model).2) ∧
    (model.canHotReload = true → CompilationModeWithProxy.ofMode mode = cmode →
      (update cmode (.webSocketMessageReceived d
          (.valid (.successfullyCompiled code mode ts))) model).1.status =
        .idle d .sendKeyDoNotUseAllTheTime ∧
      (update cmode (.webSocketMessageReceived d
          (.valid (.successfullyCompiled code mode ts))) model).1.elmCompiledTimestamp
        = ts ∧
      Cmd.eval code ∈ (update cmode (.webSocketMessageReceived d
          (.valid (.successfullyCompiled code mode ts))) model).2) := by
  constructor
  · intro h
    simp only [update, parseWebSocketMessageData, onWebSocketToClientMessage]
    rw [if_pos h]
    simp
  · intro h1 h2
    have hneg : ¬(model.canHotReload = false ∨
        CompilationModeWithProxy.ofMode mode ≠ cmode) := by
      simp [h1, h2]
    simp only [update, parseWebSocketMessageData, onWebSocketToClientMessage]
    rw [if_neg hneg]
    simp

/-- C1 witness: both sides of the gate evaluated on concrete models, a model
that cannot hot reload and one that can, in standard mode. -/
theorem C1_successfullyCompiled_gate_witness :
    Cmd.reloadPage ∈ (update (.ofMode .standard) (.webSocketMessageReceived 9
        (.valid (.successfullyCompiled "1+1" .standard 42)))
        { status := .busy 0 none, elmCompiledTimestamp := 0,
          canHotReload := false, uiExpanded := false }).2 ∧
    Cmd.eval "1+1" ∉ (update (.ofMode .standard) (.webSocketMessageReceived 9
        (.valid (.successfullyCompiled "1+1" .standard 42)))
        { status := .busy 0 none, elmCompiledTimestamp := 0,
          canHotReload := false, uiExpanded := false }).2 ∧
    (update (.ofMode .standard) (.webSocketMessageReceived 9
        (.valid (.successfullyCompiled "1+1" .standard 42)))
        { status := .busy 0 none, elmCompiledTimestamp := 0,
          canHotReload := true, uiExpanded := false }).1.status =
      .idle 9 .sendKeyDoNotUseAllTheTime ∧
    (update (.ofMode .standard) (.webSocketMessageReceived 9
        (.valid (.successfullyCompiled "1+1" .standard 42)))
        { status := .busy 0 none, elmCompiledTimestamp := 0,
          canHotReload := true, uiExpanded := false }).1.elmCompiledTimestamp = 42 ∧
    Cmd.eval "1+1" ∈ (update (.ofMode .standard) (.webSocketMessageReceived 9
        (.valid (.successfullyCompiled "1+1" .standard 42)))
        { status := .busy 0 none, elmCompiledTimestamp := 0,
          canHotReload := true, uiExpanded := false }).2 :=
  ⟨((C1_successfullyCompiled_gate (.ofMode .standard)
      { status := .busy 0 none, elmCompiledTimestamp := 0,
        canHotReload := false, uiExpanded := false } "1+1" .standard 42 9).1
      (Or.inl rfl)).1,
   ((C1_successfullyCompiled_gate (.ofMode .standard)
      { status := .busy 0 none, elmCompiledTimestamp := 0,
        canHotReload := false, uiExpanded := false } "1+1" .standard 42 9).1
      (Or.inl rfl)).2 "1+1",
   ((C1_successfullyCompiled_gate (.ofMode .standard)
      { status := .busy 0 none, elmCompiledTimestamp := 0,
        canHotReload := true, uiExpanded := false } "1+1" .standard 42 9).2
      rfl rfl).1,
   ((C1_successfullyCompiled_gate (.ofMode .standard)
      { status := .busy 0 none, elmCompiledTimestamp := 0,
        canHotReload := true, uiExpanded := false } "1+1" .standard 42 9).2
      rfl rfl).2.1,
   ((C1_successfullyCompiled_gate (.ofMode .standard)
      { status := .busy 0 none, elmCompiledTimestamp := 0,
        canHotReload := true, uiExpanded := false } "1+1" .standard 42 9).2
      rfl rfl).2.2⟩

/-- C5: from SleepingBeforeReconnect(n) entered at time d0, a timer wake at
time d transitions to Connecting(n) and emits a Reconnect command carrying
elmCompiledTimestamp exactly when the elapsed time d - d0 is at least
wait(n); the two forced wakes perform the transition unconditionally. -/
theorem C5_sleeping_wake (cmode : CompilationModeWithProxy) (model : Model)
    (d0 : Int) (n : Nat) (d : Int)
    (h : model.status = .sleepingBeforeReconnect d0 n) :
    ((update cmode (.sleepBeforeReconnectDone d) model =
        ({ model with status := .connecting d n },
         [.reconnect model.elmCompiledTimestamp])) ↔
      (retryWaitMs n : Int) ≤ d - d0) ∧
    update cmode (.pageVisibilityChangedToVisible d) model =
      ({ model with status := .connecting d n },
       [.reconnect model.elmCompiledTimestamp]) ∧
    update cmode (.uiMsg d .pressedReconnectNow) model =
      ({ model with status := .connecting d n },
       [.reconnect model.elmCompiledTimestamp]) := by
  have hrec : ∀ f : Bool, reconnect model d f =
      if (retryWaitMs n : Int) ≤ d - d0 ∨ f = true then
        ({ model with status := .connecting d n },
         [.reconnect model.elmCompiledTimestamp])
      else (model, []) := by
    intro f
    unfold reconnect
    rw [h]
  refine ⟨?_, ?_, ?_⟩
  · show (reconnect model d false = _) ↔ _
    rw [hrec false]
    constructor
    · intro heq
      by_cases hc : (retryWaitMs n : Int) ≤ d - d0
      · exact hc
      · rw [if_neg (by simp [hc])] at heq
        simp at heq
    · intro hc
      rw [if_pos (Or.inl hc)]
  · show reconnect model d true = _
    rw [hrec true, if_pos (Or.inr rfl)]
  · show reconnect model d true = _
    rw [hrec true, if_pos (Or.inr rfl)]

/-- C5 witness: the wake behaviour evaluated on a concrete sleeping model at
attempt 2, with a timer wake 2000 ms after entering the status. -/
theorem C5_sleeping_wake_witness :
    ((update (.ofMode .standard) (.sleepBeforeReconnectDone 2000)
        { status := .sleepingBeforeReconnect 0 2, elmCompiledTimestamp := 42,
          canHotReload := true, uiExpanded := false } =
      ({ status := .connecting 2000 2, elmCompiledTimestamp := 42,
         canHotReload := true, uiExpanded := false }, [.reconnect 42])) ↔
      (retryWaitMs 2 : Int) ≤ 2000 - 0) ∧
    update (.ofMode .standard) (.pageVisibilityChangedToVisible 2000)
        { status := .sleepingBeforeReconnect 0 2, elmCompiledTimestamp := 42,
          canHotReload := true, uiExpanded := false } =
      ({ status := .connecting 2000 2, elmCompiledTimestamp := 42,
         canHotReload := true, uiExpanded := false }, [.reconnect 42]) ∧
    update (.ofMode .standard) (.uiMsg 2000 .pressedReconnectNow)
        { status := .sleepingBeforeReconnect 0 2, elmCompiledTimestamp := 42,
          canHotReload := true, uiExpanded := false } =
      ({ status := .connecting 2000 2, elmCompiledTimestamp := 42,
         canHotReload := true, uiExpanded := false }, [.reconnect 42]) :=
  C5_sleeping_wake (.ofMode .standard)
    { status := .sleepingBeforeReconnect 0 2, elmCompiledTimestamp := 42,
      canHotReload := true, uiExpanded := false } 0 2 2000 rfl

/-- C2: canHotReload is false in the initial model; the transition handling
StatusChanged AlreadyUpToDate sets it to true, and it is the only message
that turns it from false to true. -/
theorem C2_canHotReload_source :
    (∀ ts d : Int, (init ts d).1.canHotReload = false) ∧
    (∀ (cmode : CompilationModeWithProxy) (model : Model) (d : Int),
      (update cmode (.webSocketMessageReceived d
        (.valid (.statusChanged .alreadyUpToDate))) model).1.canHotReload
        = true) ∧
    (∀ (cmode : CompilationModeWithProxy) (msg : Msg) (model : Model),
      model.canHotReload = false →
      (update cmode msg model).1.canHotReload = true →
      ∃ d : Int,
        msg = .webSocketMessageReceived d
          (.valid (.statusChanged .alreadyUpToDate))) := by
  refine ⟨fun ts d => rfl, fun cmode model d => rfl, ?_⟩
  intro cmode msg model h0 h1
  cases msg with
  | evalErrored d => simp [update, h0] at h1
  | focusedTab => simp [update, h0] at h1
  | pageVisibilityChangedToVisible d =>
      rw [show update cmode (.pageVisibilityChangedToVisible d) model =
            reconnect model d true from rfl,
          reconnect_fst_canHotReload] at h1
      simp [h0] at h1
  | sleepBeforeReconnectDone d =>
      rw [show update cmode (.sleepBeforeReconnectDone d) model =
            reconnect model d false from rfl,
          reconnect_fst_canHotReload] at h1
      simp [h0] at h1
  | uiMsg d u =>
      cases u with
      | changedCompilationMode cm k => simp [update, onUiMsg, h0] at h1
      | pressedChevron => simp [update, onUiMsg, h0] at h1
      | pressedReconnectNow =>
          rw [show update cmode (.uiMsg d .pressedReconnectNow) model =
                reconnect model d true from rfl,
              reconnect_fst_canHotReload] at h1
          simp [h0] at h1
  | webSocketClosed d => simp [update, h0] at h1
  | webSocketConnected d => simp [update, h0] at h1
  | webSocketMessageReceived d data =>
      cases data with
      | invalid e => simp [update, parseWebSocketMessageData, h0] at h1
      | valid m =>
          cases m with
          | statusChanged s =>
              cases s with
              | alreadyUpToDate => exact ⟨d, rfl⟩
              | busy cm =>
                  simp [update, parseWebSocketMessageData,
                    onWebSocketToClientMessage, statusChanged, h0] at h1
              | clientError s =>
                  simp [update, parseWebSocketMessageData,
                    onWebSocketToClientMessage, statusChanged, h0] at h1
              | compileError =>
                  simp [update, parseWebSocketMessageData,
                    onWebSocketToClientMessage, statusChanged, h0] at h1
          | successfullyCompiled code cm ts =>
              simp [update, parseWebSocketMessageData,
                onWebSocketToClientMessage, h0] at h1

/-- C2 witness: the initial model has canHotReload false, and the
AlreadyUpToDate transition from a concrete model with canHotReload false is
recognised as the unique source of the flag. -/
theorem C2_canHotReload_source_witness :
    (init 0 0).1.canHotReload = false ∧
    (update (.ofMode .standard) (.webSocketMessageReceived 7
      (.valid (.statusChanged .alreadyUpToDate)))
      { status := .busy 0 none, elmCompiledTimestamp := 0, canHotReload := false,
        uiExpanded := false }).1.canHotReload = true ∧
    ∃ d : Int,
      Msg.webSocketMessageReceived 7 (.valid (.statusChanged .alreadyUpToDate)) =
        .webSocketMessageReceived d (.valid (.statusChanged .alreadyUpToDate)) :=
  ⟨C2_canHotReload_source.1 0 0,
   C2_canHotReload_source.2.1 (.ofMode .standard)
     { status := .busy 0 none, elmCompiledTimestamp := 0, canHotReload := false,
       uiExpanded := false } 7,
   C2_canHotReload_source.2.2 (.ofMode .standard)
     (.webSocketMessageReceived 7 (.valid (.statusChanged .alreadyUpToDate)))
     { status := .busy 0 none, elmCompiledTimestamp := 0, canHotReload := false,
       uiExpanded := false } rfl rfl⟩

/-- C3 counterexample: a UiMsg ChangedCompilationMode carrying the send key,
processed while the status is Busy (which can arise because messages are
dispatched asynchronously after the key was minted), makes the transition
emit a SendMessage although the current status is not Idle. -/
theorem C3_counterexample_send_while_busy :
    Cmd.sendMessage (.changedCompilationMode .optimize) .sendKeyDoNotUseAllTheTime ∈
      (update (.ofMode .standard)
        (.uiMsg 3 (.changedCompilationMode .optimize .sendKeyDoNotUseAllTheTime))
        { status := .busy 0 none, elmCompiledTimestamp := 0,
          canHotReload := false, uiExpanded := false }).2 ∧
    Status.idleTag (.busy 0 none) = false := by
  exact ⟨by simp [update, onUiMsg], rfl⟩

/-- C3 amended: the transition emits a SendMessage only when the current
status is Idle (the FocusedTab send) or when the message itself presents a
send key, that is, it is a UiMsg ChangedCompilationMode carrying the emitted
key; such a message can only be built from a key minted by an Idle
transition. -/
theorem C3_send_requires_idle_or_carried_key (cmode : CompilationModeWithProxy)
    (msg : Msg) (model : Model) (m : WebSocketToServerMessage) (k : SendKey)
    (h : Cmd.sendMessage m k ∈ (update cmode msg model).2) :
    model.status.idleTag = true ∨
      ∃ (d : Int) (cm : CompilationMode),
        msg = .uiMsg d (.changedCompilationMode cm k) := by
  cases msg with
  | evalErrored d => simp [update] at h
  | focusedTab =>
      cases hs : model.status <;> simp [update, hs] at h
      exact Or.inl rfl
  | pageVisibilityChangedToVisible d =>
      exact absurd h (reconnect_no_sendMessage model d true m k)
  | sleepBeforeReconnectDone d =>
      exact absurd h (reconnect_no_sendMessage model d false m k)
  | uiMsg d u =>
      cases u with
      | changedCompilationMode cm k0 =>
          have h' : Cmd.sendMessage m k =
              Cmd.sendMessage (.changedCompilationMode cm) k0 := by
            simpa [update, onUiMsg] using h
          injection h' with h1 h2
          exact Or.inr ⟨d, cm, by rw [h2]⟩
      | pressedChevron => simp [update, onUiMsg] at h
      | pressedReconnectNow =>
          exact absurd h (reconnect_no_sendMessage model d true m k)
  | webSocketClosed d => simp [update] at h
  | webSocketConnected d => simp [update] at h
  | webSocketMessageReceived d data =>
      cases data with
      | invalid e => simp [update, parseWebSocketMessageData] at h
      | valid wm =>
          cases wm with
          | statusChanged s =>
              simp [update, parseWebSocketMessageData,
                onWebSocketToClientMessage] at h
          | successfullyCompiled code cm ts =>
              by_cases hc : (model.canHotReload = false ∨
                  CompilationModeWithProxy.ofMode cm ≠ cmode)
              · simp [update, parseWebSocketMessageData,
                  onWebSocketToClientMessage, hc] at h
              · simp [update, parseWebSocketMessageData,
                  onWebSocketToClientMessage, hc] at h

/-- C3 amended witness: the FocusedTab send from a concrete Idle model is
classified by the amended statement. -/
theorem C3_send_requires_idle_or_carried_key_witness :
    Status.idleTag (Status.idle 0 .sendKeyDoNotUseAllTheTime) = true ∨
      ∃ (d : Int) (cm : CompilationMode),
        Msg.focusedTab = .uiMsg d (.changedCompilationMode cm
          .sendKeyDoNotUseAllTheTime) :=
  C3_send_requires_idle_or_carried_key (.ofMode .standard) .focusedTab
    { status := .idle 0 .sendKeyDoNotUseAllTheTime, elmCompiledTimestamp := 0,
      canHotReload := true, uiExpanded := false }
    .focusedTab .sendKeyDoNotUseAllTheTime (by simp [update])

/-- Helper: a filter keeps the whole list exactly when every element
satisfies the predicate, phrased through lengths as in the source. -/
theorem filter_length_eq_iff_all (l : List ProgramType) :
    ((l.filter programTypeNoDebugger).length = l.length) ↔
      ∀ t ∈ l, programTypeNoDebugger t = true := by
  constructor
  · intro h
    exact List.filter_eq_self.mp ((List.filter_sublist l).eq_of_length h)
  · intro h
    rw [List.filter_eq_self.mpr h]

/-- C8: the introspection returns NoProgramsAtAll when the registry decodes
to zero program kinds; on a schema failure it returns DecodeError(message)
except in proxy mode, where it returns DebuggerModeStatus(Enabled); and it
returns DebuggerModeStatus(Disabled(reason)) exactly when every found kind
is debugger-incompatible, the reason naming the distinct incompatible kinds
deduplicated and human-joined with "and". -/
theorem C8_checkInitializedElmAppsStatus_classification
    (cmode : CompilationModeWithProxy) (window : JsValue) :
    (ProgramTypes window = .ok [] →
      checkInitializedElmAppsStatus cmode window = .noProgramsAtAll) ∧
    (∀ e, ProgramTypes window = .error e → cmode = .proxy →
      checkInitializedElmAppsStatus cmode window =
        .debuggerModeStatus .enabled) ∧
    (∀ e, ProgramTypes window = .error e → cmode ≠ .proxy →
      checkInitializedElmAppsStatus cmode window = .decodeError e) ∧
    (∀ ts, ProgramTypes window = .ok ts → ts ≠ [] →
      (checkInitializedElmAppsStatus cmode window =
          .debuggerModeStatus (.disabled (noDebuggerReason (dedupKeepFirst ts))) ↔
        ∀ t ∈ ts, programTypeNoDebugger t = true)) := by
  refine ⟨?_, ?_, ?_, ?_⟩
  · intro h
    simp [checkInitializedElmAppsStatus, h]
  · intro e h hp
    simp [checkInitializedElmAppsStatus, h, hp]
  · intro e h hp
    simp [checkInitializedElmAppsStatus, h, hp]
  · intro ts h hne
    have hlen : ¬ ts.length = 0 := by simpa using hne
    constructor
    · intro hres
      by_cases hc : (ts.filter programTypeNoDebugger).length = ts.length
      · exact (filter_length_eq_iff_all ts).mp hc
      · exfalso
        simp [checkInitializedElmAppsStatus, h, hlen, hc] at hres
    · intro hall
      have hc := (filter_length_eq_iff_all ts).mpr hall
      have hfe : ts.filter programTypeNoDebugger = ts :=
        List.filter_eq_self.mpr hall
      simp [checkInitializedElmAppsStatus, h, hlen, hc, hfe]

/-- C8 witness: the classification evaluated on concrete registries: an
empty module record, a non-object page global (in proxy and standard mode),
and a registry holding exactly one plain-render (Html) program. -/
theorem C8_checkInitializedElmAppsStatus_classification_witness :
    checkInitializedElmAppsStatus (.ofMode .standard)
      (.obj [("Elm", .obj [])]) = .noProgramsAtAll ∧
    checkInitializedElmAppsStatus .proxy (.num 5) =
      .debuggerModeStatus .enabled ∧
    checkInitializedElmAppsStatus (.ofMode .standard) (.num 5) =
      .decodeError "Expected an object but got another type of value" ∧
    (checkInitializedElmAppsStatus (.ofMode .standard)
        (.obj [("Elm", .obj [("Main",
          .arr [.obj [("__elmWatchProgramType", .str "Html")]])])]) =
        .debuggerModeStatus (.disabled (noDebuggerReason
          (dedupKeepFirst [.html]))) ↔
      ∀ t ∈ [ProgramType.html], programTypeNoDebugger t = true) :=
  ⟨(C8_checkInitializedElmAppsStatus_classification (.ofMode .standard)
      (.obj [("Elm", .obj [])])).1 rfl,
   (C8_checkInitializedElmAppsStatus_classification .proxy (.num 5)).2.1
     "Expected an object but got another type of value" rfl rfl,
   (C8_checkInitializedElmAppsStatus_classification (.ofMode .standard)
      (.num 5)).2.2.1
     "Expected an object but got another type of value" rfl (by simp),
   (C8_checkInitializedElmAppsStatus_classification (.ofMode .standard)
      (.obj [("Elm", .obj [("Main",
        .arr [.obj [("__elmWatchProgramType", .str "Html")]])])])).2.2.2
     [.html] rfl (by simp)⟩

/-- C9: the interception guard throws the single fixed error when reading a
property absent from both the placeholder and the underscore allow-list,
returns any genuinely existing property unmodified, throws on presence
checks and descriptor reads for absent properties while passing present
ones through, and always throws on key enumeration. -/
theorem C9_interception_guard (target : List (String × JsValue))
    (property : String) :
    ((jsGet target property).undefTag = true →
      startsWithUnderscore property = false →
      elmProxyGet target property = .error .proxyNotReadyError) ∧
    ((jsGet target property).undefTag = false →
      elmProxyGet target property = .ok (jsGet target property)) ∧
    (lookupField target property = none →
      elmProxyHas target property = .error .proxyNotReadyError ∧
      elmProxyGetOwnPropertyDescriptor target property =
        .error .proxyNotReadyError) ∧
    (∀ v, lookupField target property = some v →
      elmProxyHas target property = .ok true ∧
      elmProxyGetOwnPropertyDescriptor target property = .ok v) ∧
    elmProxyOwnKeys target = .error .proxyNotReadyError := by
  refine ⟨?_, ?_, ?_, ?_, rfl⟩
  · intro h1 h2
    simp [elmProxyGet, h1, h2]
  · intro h1
    simp [elmProxyGet, h1]
  · intro hnone
    exact ⟨by simp [elmProxyHas, hnone],
           by simp [elmProxyGetOwnPropertyDescriptor, hnone]⟩
  · intro v hsome
    exact ⟨by simp [elmProxyHas, hsome],
           by simp [elmProxyGetOwnPropertyDescriptor, hsome]⟩

/-- C9 witness: the guard evaluated on a concrete one-entry placeholder, for
an absent property, the present property and key enumeration. -/
theorem C9_interception_guard_witness :
    elmProxyGet [("Main", .func)] "Nope" = .error .proxyNotReadyError ∧
    elmProxyGet [("Main", .func)] "Main" = .ok .func ∧
    (elmProxyHas [("Main", .func)] "Nope" = .error .proxyNotReadyError ∧
     elmProxyGetOwnPropertyDescriptor [("Main", .func)] "Nope" =
       .error .proxyNotReadyError) ∧
    (elmProxyHas [("Main", .func)] "Main" = .ok true ∧
     elmProxyGetOwnPropertyDescriptor [("Main", .func)] "Main" = .ok .func) ∧
    elmProxyOwnKeys [("Main", .func)] = .error .proxyNotReadyError :=
  ⟨(C9_interception_guard [("Main", .func)] "Nope").1 rfl (by decide),
   (C9_interception_guard [("Main", .func)] "Main").2.1 rfl,
   (C9_interception_guard [("Main", .func)] "Nope").2.2.1 rfl,
   (C9_interception_guard [("Main", .func)] "Main").2.2.2.1 .func rfl,
   (C9_interception_guard [("Main", .func)] "Main").2.2.2.2⟩

end Theorems

end ElmWatch
